import Mathlib

set_option maxRecDepth 100000

/-!
Verification of the Trusty trust-scoring core against its specification.

The definitions below are a shallow embedding of the TypeScript sources:
* src/app/services/scoring.service.ts   (ScoringService.calculateScore and helpers)
* src/app/services/trust-checker.service.ts (orchestrator weights, error placeholder,
  localStorage aggregate cache)
* api/heuristics handler (lexical fraud detector: typosquatting, TLD, length,
  patterns, known-brand checks)
* api/reviews handler (getReviewsWeight) and api/ipqs handler (reputation result)

JavaScript numbers are modelled as rationals, machine strings as Lean strings,
and the open, signal-specific details payloads as a record of optional fields
(a field being some _ models the corresponding key being present, matching the
structural type guards that probe field presence with the JS in operator).
-/

namespace Trusty

/-- CheckStatus from check-result.model.ts. -/
inductive CheckStatus
  | safe
  | warning
  | danger
  | unknown
deriving DecidableEq, Repr

/-- TrustLevel from trust-result.model.ts. -/
inductive TrustLevel
  | safe
  | caution
  | danger
deriving DecidableEq, Repr

/-- Open details payload of a check result.  Each field models the presence
(some) or absence (none) of the corresponding key on the JS object; only the
keys inspected by the scoring engine are modelled. -/
structure CheckDetails where
  isMalware : Option Bool := none
  isPhishing : Option Bool := none
  domainAge : Option ℤ := none
  registrar : Option String := none
  suspiciousPayments : Option Bool := none
  hasVatNumber : Option Bool := none
  insufficientReviews : Option Bool := none
  totalReviews : Option ℤ := none
  error : Option Bool := none
deriving DecidableEq, Repr

/-- CheckResult from check-result.model.ts.  The type field is kept as a raw
string, matching the runtime representation of the TS string-union type. -/
structure CheckResult where
  type : String
  status : CheckStatus
  score : ℤ
  weight : ℤ
  message : String
  details : Option CheckDetails := none
deriving DecidableEq, Repr

/-- TrustBullet icon variants. -/
inductive BulletIcon
  | check
  | warning
  | danger
deriving DecidableEq, Repr

/-- TrustBullet from trust-result.model.ts. -/
structure TrustBullet where
  icon : BulletIcon
  text : String
deriving DecidableEq, Repr

/-- TrustResult from trust-result.model.ts (checkedAt, the wall-clock Date at
creation time, is outside the pure model). -/
structure TrustResult where
  url : String
  domain : String
  score : ℤ
  level : TrustLevel
  bullets : List TrustBullet
  details : List CheckResult
deriving DecidableEq, Repr

/-- getTrustLevel from trust-result.model.ts: safe at 70, caution at 40. -/
def getTrustLevel (score : ℤ) : TrustLevel :=
  if 70 ≤ score then .safe
  else if 40 ≤ score then .caution
  else .danger

/-- Type guard isSafeBrowsingDetails: both the isMalware and the isPhishing
keys must be present on the details object. -/
def isSafeBrowsingDetails : Option CheckDetails → Bool
  | none => false
  | some d => d.isMalware.isSome && d.isPhishing.isSome

/-- Type guard isWhoisDetails: both domainAge and registrar keys present. -/
def isWhoisDetails : Option CheckDetails → Bool
  | none => false
  | some d => d.domainAge.isSome && d.registrar.isSome

/-- Type guard isHeuristicsDetails: suspiciousPayments and hasVatNumber
keys present. -/
def isHeuristicsDetails : Option CheckDetails → Bool
  | none => false
  | some d => d.suspiciousPayments.isSome && d.hasVatNumber.isSome

/-- hasInsufficientReviews from scoring.service.ts: true when details is
absent, when insufficientReviews is strictly true, or when a totalReviews
value is present and below 20. -/
def hasInsufficientReviews : Option CheckDetails → Bool
  | none => true
  | some d =>
      d.insufficientReviews == some true ||
        match d.totalReviews with
        | some t => decide (t < 20)
        | none => false

/-- checks.find on the type field (first matching element). -/
def findCheck (t : String) (checks : List CheckResult) : Option CheckResult :=
  checks.find? (fun c => c.type == t)

/-- The body of the malware override test: the details pass the
isSafeBrowsingDetails guard (both keys present) and one of the two flags is
true. -/
def detailsFlagged : Option CheckDetails → Bool
  | some d =>
      match d.isMalware, d.isPhishing with
      | some m, some p => m || p
      | _, _ => false
  | none => false

/-- The malware override condition of calculateScore: the first safe-browsing
result passes the isSafeBrowsingDetails guard and one of its flags is true. -/
def malwareOverride (checks : List CheckResult) : Bool :=
  match findCheck ("safe-browsing") checks with
  | some c => detailsFlagged c.details
  | none => false

/-- Sum of the weight fields (the totalWeight accumulator). -/
def totalWeight (checks : List CheckResult) : ℤ :=
  (checks.map (fun c => c.weight)).sum

/-- The weightedScore accumulator: each check contributes
score times (weight / 100). -/
def weightedScore (checks : List CheckResult) : ℚ :=
  (checks.map (fun c => (c.score : ℚ) * ((c.weight : ℚ) / 100))).sum

/-- Lines 70-79 of calculateScore: the weighted blend, defaulting to 50 when
the weight sum is not positive. -/
def blendScore (checks : List CheckResult) : ℚ :=
  if 0 < totalWeight checks then
    weightedScore checks / (totalWeight checks : ℚ) * 100
  else 50

/-- Young-domain cap: if the first whois result passes the isWhoisDetails
guard and reports domainAge below 30, cap the running score at 50. -/
def applyYoungDomainCap (checks : List CheckResult) (fs : ℚ) : ℚ :=
  match findCheck ("whois") checks with
  | some c =>
      match c.details with
      | some d =>
          match d.domainAge, d.registrar with
          | some age, some _ => if age < 30 then min fs 50 else fs
          | _, _ => fs
      | none => fs
  | none => fs

/-- Crypto-only-payment penalty: if the first heuristics result passes the
isHeuristicsDetails guard and suspiciousPayments is true, subtract 20,
floored at 0. -/
def applyCryptoCap (checks : List CheckResult) (fs : ℚ) : ℚ :=
  match findCheck ("heuristics") checks with
  | some c =>
      match c.details with
      | some d =>
          match d.suspiciousPayments, d.hasVatNumber with
          | some sp, some _ => if sp then max 0 (fs - 20) else fs
          | _, _ => fs
      | none => fs
  | none => fs

/-- Insufficient-reviews cap: if a reviews result is present and
hasInsufficientReviews holds of its details, cap at 60. -/
def applyReviewsCap (checks : List CheckResult) (fs : ℚ) : ℚ :=
  match findCheck ("reviews") checks with
  | some c => if hasInsufficientReviews c.details then min fs 60 else fs
  | none => fs

/-- JS String.split with a single-character separator, on character lists;
the split of the empty list is one empty part, as in JS. -/
def splitOnChar (sep : Char) : List Char → List (List Char)
  | [] => [[]]
  | c :: cs =>
      if c = sep then [] :: splitOnChar sep cs
      else
        match splitOnChar sep cs with
        | [] => [[c]]
        | p :: ps => (c :: p) :: ps

/-- JS String.split with a single-character separator. -/
def splitString (s : String) (sep : Char) : List String :=
  (splitOnChar sep s.toList).map (fun l => ⟨l⟩)

/-- JS Array.join with a separator string. -/
def joinWith (sep : String) : List String → String
  | [] => ""
  | [x] => x
  | x :: xs => x ++ sep ++ joinWith sep xs

/-- JS String.toLowerCase, character by character. -/
def toLowerStr (s : String) : String := ⟨s.toList.map Char.toLower⟩

/-- extractDomain from mock-data.ts, modelled by its string-processing path:
strip an optional scheme, strip a leading www. label, and keep everything up
to the first slash (the URL-object path of the source produces the same
hostname on well-formed URLs). -/
def extractDomain (url : String) : String :=
  let s := if ("http://").toList.isPrefixOf url.toList then (⟨url.toList.drop 7⟩ : String)
           else if ("https://").toList.isPrefixOf url.toList then ⟨url.toList.drop 8⟩
           else url
  let s := if ("www.").toList.isPrefixOf s.toList then (⟨s.toList.drop 4⟩ : String) else s
  ((splitString s '/').headD s)

/-- getIconForStatus from scoring.service.ts. -/
def getIconForStatus : CheckStatus → BulletIcon
  | .safe => .check
  | .warning => .warning
  | .danger => .danger
  | .unknown => .warning

/-- The statusOrder table of generateBullets. -/
def statusOrder : CheckStatus → ℕ
  | .danger => 0
  | .warning => 1
  | .unknown => 2
  | .safe => 3

/-- The priorityOrder table of generateBullets (99 for unknown types). -/
def bulletPriority : String → ℕ
  | "safe-browsing" => 1
  | "whois" => 2
  | "ssl" => 3
  | "reviews" => 4
  | "ipqs" => 5
  | "heuristics" => 6
  | _ => 99

/-- The sort key of the generateBullets comparator: status first, then the
fixed priority (priorities are below 100, so this single key is the
lexicographic order of the pair). -/
def bulletKey (c : CheckResult) : ℕ :=
  statusOrder c.status * 100 + bulletPriority c.type

/-- generateBullets: stable-sort by status then priority, take the first 4,
map each to an icon/message bullet. -/
def generateBullets (checks : List CheckResult) : List TrustBullet :=
  let sorted := checks.mergeSort (fun a b => bulletKey a ≤ bulletKey b)
  (sorted.take 4).map (fun c => ⟨getIconForStatus c.status, c.message⟩)

/-- createResult from scoring.service.ts. -/
def createResult (url domain : String) (score : ℤ) (checks : List CheckResult) :
    TrustResult :=
  { url := url
    domain := domain
    score := score
    level := getTrustLevel score
    bullets := generateBullets checks
    details := checks }

/-- calculateScore from scoring.service.ts: malware override first, then the
weighted blend followed by the three caps in source order, rounded at the
end (JS Math.round agrees with Mathlib round on rationals). -/
def calculateScore (url : String) (checks : List CheckResult) : TrustResult :=
  let domain := extractDomain url
  if malwareOverride checks then createResult url domain 0 checks
  else
    let fs := blendScore checks
    let fs := applyYoungDomainCap checks fs
    let fs := applyCryptoCap checks fs
    let fs := applyReviewsCap checks fs
    createResult url domain (round fs) checks

/-! Trust-checker orchestrator: configured weights, error placeholder, and
the localStorage aggregate cache (trust-checker.service.ts). -/

/-- The weights record of getWeightForType (trust-checker.service.ts).  The
doc comment of the source assigns safe-browsing 0 percent (preliminary
filter only), whois 10, ssl 10, ipqs 30, reviews 40, heuristics 10. -/
def configuredWeights : String → Option ℕ
  | "safe-browsing" => some 0
  | "whois" => some 10
  | "ssl" => some 10
  | "ipqs" => some 30
  | "reviews" => some 40
  | "heuristics" => some 10
  | _ => none

/-- getWeightForType: the JS expression weights[type] || 10 falls back to 10
both when the key is missing and when the stored weight is 0, because 0 is
falsy. -/
def getWeightForType (t : String) : ℕ :=
  match configuredWeights t with
  | some w => if w = 0 then 10 else w
  | none => 10

/-- createErrorResult: the neutral placeholder substituted for a failed
check. -/
def createErrorResult (t : String) : CheckResult :=
  { type := t
    status := .unknown
    score := 50
    weight := (getWeightForType t : ℤ)
    message := "Verifica non disponibile"
    details := some { error := some true } }

/-- runCheck: the catchError wrapper around one check.  The outcome of the
underlying observable is modelled as an Except value; every failure is
mapped to the error placeholder, so a result is always produced. -/
def runCheck (t : String) (outcome : Except String CheckResult) : CheckResult :=
  match outcome with
  | .ok r => r
  | .error _ => createErrorResult t

/-- An entry of the client-side aggregate cache. -/
structure CacheEntry where
  result : TrustResult
  timestamp : ℤ
deriving DecidableEq

/-- The localStorage backing store, one optional entry per key. -/
def Store : Type := String → Option CacheEntry

/-- CACHE_PREFIX from trust-checker.service.ts. -/
def CACHE_PREFIX : String := "trusty_cache_"

/-- CACHE_TTL_MS: 24 hours in milliseconds. -/
def CACHE_TTL_MS : ℤ := 24 * 60 * 60 * 1000

/-- Cache key construction: prefix plus lower-cased domain. -/
def cacheKey (domain : String) : String := CACHE_PREFIX ++ toLowerStr domain

/-- getCachedResult: read the entry at the domain key; an entry whose age
strictly exceeds the TTL is removed and reported absent.  The function
returns the read result together with the store after the lazy expiry. -/
def getCachedResult (store : Store) (now : ℤ) (domain : String) :
    Option TrustResult × Store :=
  let key := cacheKey domain
  match store key with
  | none => (none, store)
  | some entry =>
      if CACHE_TTL_MS < now - entry.timestamp then
        (none, fun k => if k = key then none else store k)
      else (some entry.result, store)

/-- setCachedResult: unconditionally overwrite the entry at the domain key
with the result stamped at the current time. -/
def setCachedResult (store : Store) (now : ℤ) (domain : String)
    (result : TrustResult) : Store :=
  fun k => if k = cacheKey domain then some ⟨result, now⟩ else store k

/-! Lexical heuristics detector (the api heuristics handler). -/

/-- KNOWN_BRANDS: the fixed list of recognized brand labels. -/
def KNOWN_BRANDS : List String :=
  ["amazon", "ebay", "zalando", "alibaba", "aliexpress",
   "apple", "microsoft", "google", "facebook", "instagram",
   "paypal", "netflix", "spotify", "nike", "adidas",
   "samsung", "sony", "ikea", "mediaworld", "unieuro",
   "esselunga", "conad", "lidl", "euronics", "trony",
   "decathlon", "leroy", "merlin", "brico", "obi",
   "booking", "airbnb", "ryanair", "easyjet", "trenitalia",
   "poste", "intesa", "unicredit", "bnl", "fineco",
   "vodafone", "tim", "wind", "tre", "iliad", "fastweb",
   "subito", "autoscout", "immobiliare", "idealista"]

/-- CHAR_SUBSTITUTIONS: each original letter with the look-alike characters
that are mapped back to it during normalization, in source order. -/
def CHAR_SUBSTITUTIONS : List (Char × List Char) :=
  [('a', ['4', '@', 'à']),
   ('e', ['3', '€', 'è']),
   ('i', ['1', '!', 'l', '|']),
   ('o', ['0', 'ò']),
   ('u', ['v', 'ù']),
   ('s', ['5', '$']),
   ('l', ['1', 'i', '|']),
   ('b', ['8', '6']),
   ('g', ['9', '6']),
   ('t', ['7', '+'])]

/-- SUSPICIOUS_TLDS: high-abuse top-level domains. -/
def SUSPICIOUS_TLDS : List String :=
  ["xyz", "top", "click", "work", "link", "gq", "ml", "cf", "ga", "tk",
   "buzz", "surf", "monster", "quest", "sbs", "cfd", "boats", "cam",
   "icu", "cyou", "rest", "beauty", "hair", "skin", "makeup",
   "bar", "loan", "racing", "review", "cricket", "win", "bid",
   "stream", "download", "accountant", "science", "date", "faith"]

/-- TRUSTED_TLDS: top-level domains that earn a small bonus. -/
def TRUSTED_TLDS : List String :=
  ["it", "com", "org", "net", "eu", "gov", "edu",
   "co.uk", "de", "fr", "es", "nl", "be", "at", "ch"]

/-- getTld: the part after the last dot, lower-cased. -/
def getTld (domain : String) : String :=
  toLowerStr ((splitString domain '.').getLastD domain)

/-- getDomainWithoutTld: drop the last dot-separated part when there is more
than one, and rejoin. -/
def getDomainWithoutTld (domain : String) : String :=
  let parts := splitString domain '.'
  let parts := if 1 < parts.length then parts.dropLast else parts
  joinWith (".") parts

/-- One row step of the Levenshtein dynamic program of the source: walk the
characters of the first string together with the previous matrix row,
carrying the value to the left; a matching character copies the diagonal,
otherwise one plus the minimum of diagonal, left and upper entries. -/
def levRow (bc : Char) : List Char → List ℕ → ℕ → List ℕ
  | [], _, _ => []
  | _ :: _, [], _ => []
  | ac :: as, diag :: rest, left =>
      let up := match rest with
        | [] => 0
        | u :: _ => u
      let cur := if bc = ac then diag else 1 + min diag (min left up)
      cur :: levRow bc as rest cur

/-- levenshteinDistance: the matrix dynamic program of the source, row by
row; entry (i, j) is the edit distance between the first i characters of b
and the first j characters of a, and the answer is the last entry of the
final row. -/
def levenshteinDistance (a b : String) : ℕ :=
  let as := a.toList
  let fin := b.toList.foldl
    (fun (st : List ℕ × ℕ) bc =>
      let i := st.2 + 1
      (i :: levRow bc as st.1 i, i))
    (List.range (as.length + 1), 0)
  fin.1.getLastD 0

/-- normalizeDomain: lower-case, map every look-alike character back to its
original letter (in the table order of the source), then drop hyphens,
underscores and digits. -/
def normalizeDomain (domain : String) : String :=
  let chars := (toLowerStr domain).toList
  let chars := CHAR_SUBSTITUTIONS.foldl
    (fun cs p =>
      p.2.foldl (fun cs sub => cs.map (fun c => if c = sub then p.1 else c)) cs)
    chars
  let chars := chars.filter (fun c => !(c = '-' || c = '_' || c.isDigit))
  ⟨chars⟩

/-- JS String.includes: the needle occurs as a contiguous substring. -/
def strIncludes (s sub : String) : Bool :=
  s.toList.tails.any (fun t => sub.toList.isPrefixOf t)

/-- Severity levels of the heuristics sub-checks. -/
inductive Severity
  | info
  | warning
  | danger
deriving DecidableEq, Repr

/-- The record returned by each heuristics sub-check. -/
structure SubCheck where
  passed : Bool
  penalty : ℤ
  message : String
  severity : Severity
deriving DecidableEq, Repr

/-- The decoy-suffix list of the typosquatting check. -/
def SUFFIXES : List String :=
  ["-shop", "-store", "-official", "-italia", "-it", "-outlet", "-sale", "-online"]

/-- JS suffix.replace with a plain-string pattern: remove only the first
hyphen occurrence. -/
def removeFirstDash : List Char → List Char
  | [] => []
  | c :: cs => if c = '-' then cs else c :: removeFirstDash cs

/-- The hyphen-stripped form of a decoy suffix. -/
def stripDash (s : String) : String := ⟨removeFirstDash s.toList⟩

/-- The suffix test of the third typosquatting rule: some decoy suffix,
hyphen-stripped and appended to the brand, equals the label or occurs inside
it. -/
def suffixHit (brand base : String) : Bool :=
  SUFFIXES.any (fun suf =>
    let t := brand ++ stripDash suf
    base == t || strIncludes base t)

/-- The full brand-plus-suffix rule of checkTyposquatting: the label
contains the brand, differs from it, and passes the suffix test. -/
def brandSuffixRule (brand base : String) : Bool :=
  strIncludes base brand && !(base == brand) && suffixHit brand base

/-- The earlier typosquatting rules for one brand: exact normalized match
with literal mismatch, or Levenshtein distance 1 (label length at least 4)
or distance 2 (label length at least 6). -/
def earlyTyposquatRules (brand base norm : String) : Bool :=
  (norm == brand && !(base == brand)) ||
    (!(base == brand) && levenshteinDistance base brand == 1
      && decide (4 ≤ base.length)) ||
    (!(base == brand) && levenshteinDistance base brand == 2
      && decide (6 ≤ base.length))

/-- The brand loop of checkTyposquatting: for each brand in order, try the
four rules in source order and return at the first match. -/
def checkTyposquattingLoop (base norm : String) : List String → SubCheck
  | [] => ⟨true, 0, "", .info⟩
  | brand :: rest =>
      if norm == brand && !(base == brand) then
        ⟨false, 50, "Possibile typosquatting: simile a \"" ++ brand ++ "\"", .danger⟩
      else if !(base == brand) && levenshteinDistance base brand == 1
          && decide (4 ≤ base.length) then
        ⟨false, 40, "Dominio molto simile a \"" ++ brand ++ "\"", .danger⟩
      else if !(base == brand) && levenshteinDistance base brand == 2
          && decide (6 ≤ base.length) then
        ⟨false, 25, "Dominio simile a \"" ++ brand ++ "\"", .warning⟩
      else if brandSuffixRule brand base then
        ⟨false, 30, "Dominio sospetto: usa il brand \"" ++ brand ++ "\"", .warning⟩
      else checkTyposquattingLoop base norm rest

/-- checkTyposquatting: normalize the label and run the brand loop. -/
def checkTyposquatting (domain : String) : SubCheck :=
  let domainBase := getDomainWithoutTld domain
  let normalized := normalizeDomain domainBase
  checkTyposquattingLoop domainBase normalized KNOWN_BRANDS

/-- checkSuspiciousTld: penalty 25 for a high-abuse TLD, bonus 5 for a
trusted one. -/
def checkSuspiciousTld (tld : String) : SubCheck :=
  if SUSPICIOUS_TLDS.contains tld then
    ⟨false, 25, "TLD sospetto (." ++ tld ++ ")", .warning⟩
  else if TRUSTED_TLDS.contains tld then
    ⟨true, -5, "TLD affidabile (." ++ tld ++ ")", .info⟩
  else ⟨true, 0, "", .info⟩

/-- checkDomainLength: penalty 20 above 30 characters, 10 above 20. -/
def checkDomainLength (domain : String) : SubCheck :=
  let domainBase := getDomainWithoutTld domain
  if 30 < domainBase.length then
    ⟨false, 20, "Nome dominio eccessivamente lungo", .warning⟩
  else if 20 < domainBase.length then
    ⟨false, 10, "Nome dominio molto lungo", .info⟩
  else ⟨true, 0, "", .info⟩

/-- The consonant class of the pattern check (note: no letter y). -/
def isConsonant (c : Char) : Bool :=
  ("bcdfghjklmnpqrstvwxz").toList.contains c.toLower

/-- Length of the longest run of consecutive consonants. -/
def maxConsonantRun (s : List Char) : ℕ :=
  (s.foldl
    (fun (st : ℕ × ℕ) c =>
      if isConsonant c then (st.1 + 1, max st.2 (st.1 + 1)) else (0, st.2))
    (0, 0)).2

/-- The scam-keyword list of the pattern check. -/
def SCAM_KEYWORDS : List String :=
  ["free", "cheap", "discount", "offer", "win", "prize", "lucky", "bonus",
   "gratis", "sconto", "offerta", "vincita", "premio"]

/-- checkSuspiciousPatterns: hyphen count, digit ratio, consonant runs and
the first matching scam keyword; the summed penalty is capped at 40 and the
severity is warning from a raw total of 20. -/
def checkSuspiciousPatterns (domain : String) : SubCheck :=
  let domainBase := getDomainWithoutTld domain
  let hyphenCount := domainBase.toList.count '-'
  let p1 : ℤ := if 3 ≤ hyphenCount then 20 else if 2 ≤ hyphenCount then 10 else 0
  let i1 : List String :=
    if 3 ≤ hyphenCount then ["troppi trattini"]
    else if 2 ≤ hyphenCount then ["molti trattini"] else []
  let numberCount := (domainBase.toList.filter (fun c => c.isDigit)).length
  let highDigits : Bool :=
    decide (domainBase.length ≠ 0 ∧
      (3 : ℚ) / 10 < (numberCount : ℚ) / (domainBase.length : ℚ))
  let p2 : ℤ := if highDigits then 15 else 0
  let i2 : List String := if highDigits then ["troppi numeri"] else []
  let hasRun : Bool := decide (5 ≤ maxConsonantRun domainBase.toList)
  let p3 : ℤ := if hasRun then 15 else 0
  let i3 : List String := if hasRun then ["pattern sospetti"] else []
  let kw := SCAM_KEYWORDS.find? (fun k => strIncludes domainBase k)
  let p4 : ℤ := match kw with
    | some _ => 10
    | none => 0
  let i4 : List String := match kw with
    | some k => ["keyword sospetta \"" ++ k ++ "\""]
    | none => []
  let totalPenalty := p1 + p2 + p3 + p4
  let issues := i1 ++ i2 ++ i3 ++ i4
  if 0 < totalPenalty then
    ⟨false, min totalPenalty 40,
      "Pattern sospetti: " ++ joinWith (", ") issues,
      if 20 ≤ totalPenalty then .warning else .info⟩
  else ⟨true, 0, "", .info⟩

/-- checkKnownSite: a label exactly equal to a known brand earns a bonus of
20. -/
def checkKnownSite (domain : String) : SubCheck :=
  let domainBase := getDomainWithoutTld domain
  if KNOWN_BRANDS.contains domainBase then
    ⟨true, -20, "Sito conosciuto e affidabile", .info⟩
  else ⟨true, 0, "", .info⟩

/-- The five sub-checks of the heuristics handler, in source order. -/
def heuristicsChecks (domain : String) : List SubCheck :=
  [checkTyposquatting domain,
   checkSuspiciousTld (getTld domain),
   checkDomainLength domain,
   checkSuspiciousPatterns domain,
   checkKnownSite domain]

/-- The summed penalty of the five sub-checks. -/
def heuristicsTotalPenalty (domain : String) : ℤ :=
  ((heuristicsChecks domain).map (fun c => c.penalty)).sum

/-- The final heuristics score: 100 minus the total penalty, clamped into
[0, 100] as Math.max(0, Math.min(100, ...)). -/
def heuristicsScore (domain : String) : ℤ :=
  max 0 (min 100 (100 - heuristicsTotalPenalty domain))

/-- The danger messages collected by the handler. -/
def heuristicsDangers (domain : String) : List String :=
  (((heuristicsChecks domain).filter
      (fun c => !(c.message == "") && c.severity == .danger)).map
    (fun c => c.message))

/-- The warning messages collected by the handler. -/
def heuristicsWarnings (domain : String) : List String :=
  (((heuristicsChecks domain).filter
      (fun c => !(c.message == "") && c.severity == .warning)).map
    (fun c => c.message))

/-- The status of the heuristics result: danger, then warning, else safe. -/
def heuristicsStatus (domain : String) : CheckStatus :=
  if !(heuristicsDangers domain).isEmpty then .danger
  else if !(heuristicsWarnings domain).isEmpty then .warning
  else .safe

/-- The message of the heuristics result. -/
def heuristicsMessage (domain : String) : String :=
  match heuristicsDangers domain with
  | m :: _ => m
  | [] =>
      match heuristicsWarnings domain with
      | m :: _ => m
      | [] =>
          if 90 ≤ heuristicsScore domain then "Nessun pattern sospetto rilevato"
          else "Dominio nella norma"

/-- The heuristics result assembled by the handler; the attached weight is
the fixed constant 10. -/
def heuristicsResult (domain : String) : CheckResult :=
  { type := "heuristics"
    status := heuristicsStatus domain
    score := heuristicsScore domain
    weight := 10
    message := heuristicsMessage domain
    details := some {} }

/-! Reviews handler: the dynamic weight, and the ipqs (reputation) handler
result with its fixed weight. -/

/-- getReviewsWeight from the reviews handler: 10 below 50 reviews, 20 up to
200, 30 above. -/
def getReviewsWeight (totalReviews : ℤ) : ℤ :=
  if totalReviews < 50 then 10
  else if totalReviews ≤ 200 then 20
  else 30

/-- The flags of an IPQS provider response that the score mapping reads. -/
structure IpqsData where
  riskScore : ℤ
  malware : Bool
  phishing : Bool
  parking : Bool
  suspicious : Bool
deriving DecidableEq, Repr

/-- getScoreFromRiskScore from the ipqs handler: score, status and message
derived from the provider flags and risk score. -/
def getScoreFromRiskScore (data : IpqsData) : ℤ × CheckStatus × String :=
  if data.malware then (0, .danger, "Malware rilevato sul sito")
  else if data.phishing then (0, .danger, "Sito di phishing rilevato")
  else if data.parking then (20, .danger, "Dominio parcheggiato (non attivo)")
  else if 85 ≤ data.riskScore then (10, .danger, "Rischio molto alto rilevato")
  else if 75 ≤ data.riskScore then (30, .danger, "Rischio alto rilevato")
  else if data.suspicious || 50 ≤ data.riskScore then
    (50, .warning, "Alcuni elementi sospetti rilevati")
  else if 25 ≤ data.riskScore then (70, .warning, "Rischio basso rilevato")
  else (100, .safe, "Nessun rischio significativo")

/-- The ipqs result assembled by the handler on a successful provider call;
the attached weight is the fixed constant 15. -/
def ipqsResult (data : IpqsData) : CheckResult :=
  let r := getScoreFromRiskScore data
  { type := "ipqs"
    status := r.2.1
    score := r.1
    weight := 15
    message := r.2.2
    details := some {} }

/-! Concrete fixtures used by the witness theorems. -/

/-- A safe-browsing result whose provider flagged malware. -/
def sbFlagged : CheckResult :=
  { type := "safe-browsing"
    status := .danger
    score := 0
    weight := 0
    message := "Minacce rilevate: malware"
    details := some { isMalware := some true, isPhishing := some false } }

/-- A clean safe-browsing result. -/
def sbClean : CheckResult :=
  { type := "safe-browsing"
    status := .safe
    score := 100
    weight := 0
    message := "Nessuna minaccia rilevata da Google"
    details := some { isMalware := some false, isPhishing := some false } }

/-- A perfect ssl result carrying weight 10. -/
def sslPerfect : CheckResult :=
  { type := "ssl"
    status := .safe
    score := 100
    weight := 10
    message := "Certificato SSL valido"
    details := some {} }

/-- A whois result reporting a 10-day-old domain. -/
def whoisYoung : CheckResult :=
  { type := "whois"
    status := .warning
    score := 30
    weight := 10
    message := "Dominio registrato di recente"
    details := some { domainAge := some 10, registrar := some "Example Registrar" } }

/-- A reviews result reporting only 5 reviews. -/
def reviewsFew : CheckResult :=
  { type := "reviews"
    status := .warning
    score := 40
    weight := 10
    message := "Poche recensioni trovate"
    details := some { totalReviews := some 5 } }

/-- A sample aggregate result for the cache witness. -/
def sampleResult : TrustResult :=
  { url := "https://ex.com"
    domain := "ex.com"
    score := 80
    level := .safe
    bullets := []
    details := [] }

/-! Helper lemmas shared by the claim theorems. -/

/-- Rounding never crosses an integer upper bound. -/
theorem round_le_of_le {q : ℚ} {n : ℤ} (h : q ≤ (n : ℚ)) : round q ≤ n := by
  rw [round_eq]
  have hfl : (⌊(n : ℚ) + 1 / 2⌋ : ℤ) = n := by
    rw [Int.floor_eq_iff]
    constructor
    · linarith
    · linarith
  calc ⌊q + 1 / 2⌋ ≤ ⌊(n : ℚ) + 1 / 2⌋ := Int.floor_le_floor (by linarith)
    _ = n := hfl

/-- The weightedScore accumulator equals the plain score-times-weight sum
divided by 100. -/
theorem weightedScore_eq_sum_div (checks : List CheckResult) :
    weightedScore checks =
      ((checks.map (fun c => (c.score : ℚ) * (c.weight : ℚ))).sum) / 100 := by
  induction checks with
  | nil => simp [weightedScore]
  | cons c cs ih =>
      simp only [weightedScore, List.map_cons, List.sum_cons] at *
      rw [ih]
      ring

/-- The weight sum is nonnegative when every weight is. -/
theorem totalWeight_nonneg {checks : List CheckResult}
    (hw : ∀ c ∈ checks, 0 ≤ c.weight) : 0 ≤ totalWeight checks := by
  refine List.sum_nonneg ?_
  intro x hx
  rcases List.mem_map.mp hx with ⟨c, hc, rfl⟩
  exact hw c hc

/-- The score of calculateScore without the malware override: the blend fed
through the three caps and rounded. -/
theorem calculateScore_score_eq (url : String) (checks : List CheckResult)
    (hm : malwareOverride checks = false) :
    (calculateScore url checks).score =
      round (applyReviewsCap checks (applyCryptoCap checks
        (applyYoungDomainCap checks (blendScore checks)))) := by
  simp [calculateScore, hm, createResult]

/-- The crypto penalty keeps the running score below any nonnegative bound. -/
theorem applyCryptoCap_le {checks : List CheckResult} {fs B : ℚ}
    (hB : 0 ≤ B) (h : fs ≤ B) : applyCryptoCap checks fs ≤ B := by
  unfold applyCryptoCap
  repeat' split
  all_goals first
    | exact h
    | exact max_le hB (by linarith)

/-- The reviews cap keeps the running score below any bound. -/
theorem applyReviewsCap_le {checks : List CheckResult} {fs B : ℚ}
    (h : fs ≤ B) : applyReviewsCap checks fs ≤ B := by
  unfold applyReviewsCap
  repeat' split
  all_goals first
    | exact h
    | exact le_trans (min_le_left _ _) h

/-! Claim theorems. -/

/-- C1 (counterexample): the claim quantifies over every list containing a
flagged safe-browsing result, but calculateScore only inspects the first
safe-browsing entry.  A list whose first safe-browsing entry is clean and
whose second is flagged contains a flagged safe-browsing result, yet the
returned score is 100, not 0. -/
theorem malware_flag_second_entry_not_zero :
    (([sbClean, sbFlagged, sslPerfect]).any
        (fun c => c.type == "safe-browsing" && detailsFlagged c.details)) = true ∧
    (calculateScore ("https://scam.com") ([sbClean, sbFlagged, sslPerfect])).score = 100 := by
  refine ⟨by decide, ?_⟩
  rw [calculateScore_score_eq _ _ (by decide)]
  have hb : blendScore ([sbClean, sbFlagged, sslPerfect]) = 100 := by
    rw [blendScore, if_pos (by decide)]
    norm_num [weightedScore, totalWeight, sbClean, sbFlagged, sslPerfect]
  have hfw : findCheck ("whois") ([sbClean, sbFlagged, sslPerfect]) = none := by decide
  have hfh : findCheck ("heuristics") ([sbClean, sbFlagged, sslPerfect]) = none := by decide
  have hfr : findCheck ("reviews") ([sbClean, sbFlagged, sslPerfect]) = none := by decide
  have hy : applyYoungDomainCap ([sbClean, sbFlagged, sslPerfect]) 100 = 100 := by
    simp [applyYoungDomainCap, hfw]
  have hc : applyCryptoCap ([sbClean, sbFlagged, sslPerfect]) 100 = 100 := by
    simp [applyCryptoCap, hfh]
  have hr : applyReviewsCap ([sbClean, sbFlagged, sslPerfect]) 100 = 100 := by
    simp [applyReviewsCap, hfr]
  rw [hb, hy, hc, hr]
  exact round_ofNat 100

/-- C1 (amended): if the first safe-browsing result of the list reports the
malware or phishing flag true, calculateScore short-circuits and returns
score exactly 0, regardless of every other signal. -/
theorem first_safebrowsing_flag_forces_zero (url : String)
    (checks : List CheckResult) (c : CheckResult)
    (h1 : findCheck ("safe-browsing") checks = some c)
    (h2 : detailsFlagged c.details = true) :
    (calculateScore url checks).score = 0 := by
  have hmo : malwareOverride checks = true := by
    unfold malwareOverride
    rw [h1]
    exact h2
  simp [calculateScore, hmo, createResult]

/-- C1 witness: a flagged safe-browsing result forces score 0. -/
theorem first_safebrowsing_flag_forces_zero_witness :
    (calculateScore ("https://malware-site.com") ([sbFlagged, sslPerfect])).score = 0 :=
  first_safebrowsing_flag_forces_zero _ _ sbFlagged (by decide) (by decide)

/-- C3: with no malware flag and nonnegative weights, the blend defaults to
50 on a zero weight sum, otherwise equals the score-times-weight sum divided
by the weight sum, and the returned score is that blend fed through the
three caps and rounded at the end. -/
theorem weighted_blend_formula (url : String) (checks : List CheckResult)
    (hw : ∀ c ∈ checks, 0 ≤ c.weight)
    (hm : malwareOverride checks = false) :
    (totalWeight checks = 0 → blendScore checks = 50) ∧
    (totalWeight checks ≠ 0 →
      blendScore checks =
        ((checks.map (fun c => (c.score : ℚ) * (c.weight : ℚ))).sum) /
          (totalWeight checks : ℚ)) ∧
    (calculateScore url checks).score =
      round (applyReviewsCap checks (applyCryptoCap checks
        (applyYoungDomainCap checks (blendScore checks)))) := by
  refine ⟨?_, ?_, calculateScore_score_eq url checks hm⟩
  · intro h0
    simp [blendScore, h0]
  · intro hne
    have hpos : 0 < totalWeight checks :=
      lt_of_le_of_ne (totalWeight_nonneg hw) (Ne.symm hne)
    have hcast : (totalWeight checks : ℚ) ≠ 0 := Int.cast_ne_zero.mpr hne
    rw [blendScore, if_pos hpos, weightedScore_eq_sum_div]
    field_simp
    ring

/-- C3 witness: a single ssl check of score 100 and weight 10. -/
theorem weighted_blend_formula_witness :
    blendScore ([sslPerfect]) =
      ((([sslPerfect]).map (fun c => (c.score : ℚ) * (c.weight : ℚ))).sum) /
        (totalWeight ([sslPerfect]) : ℚ) :=
  (weighted_blend_formula ("https://ex.com") ([sslPerfect])
      (by decide) (by decide)).2.1 (by decide)

/-- C4: with no malware flag, a whois result whose details carry a domain
age below 30 days caps the returned score at 50, whatever the other
signals. -/
theorem young_domain_cap_le_fifty (url : String) (checks : List CheckResult)
    (c : CheckResult) (d : CheckDetails) (a : ℤ) (r : String)
    (hm : malwareOverride checks = false)
    (h1 : findCheck ("whois") checks = some c)
    (h2 : c.details = some d)
    (h3 : d.domainAge = some a)
    (h4 : d.registrar = some r)
    (h5 : a < 30) :
    (calculateScore url checks).score ≤ 50 := by
  rw [calculateScore_score_eq url checks hm]
  have hyoung : applyYoungDomainCap checks (blendScore checks) ≤ 50 := by
    simp only [applyYoungDomainCap, h1, h2, h3, h4, if_pos h5]
    exact min_le_right _ _
  have hcrypto : applyCryptoCap checks
      (applyYoungDomainCap checks (blendScore checks)) ≤ 50 :=
    applyCryptoCap_le (by norm_num) hyoung
  have hrev : applyReviewsCap checks (applyCryptoCap checks
      (applyYoungDomainCap checks (blendScore checks))) ≤ 50 :=
    applyReviewsCap_le hcrypto
  exact round_le_of_le (by exact_mod_cast hrev)

/-- C4 witness: a 10-day-old domain alongside a perfect ssl signal. -/
theorem young_domain_cap_le_fifty_witness :
    (calculateScore ("https://new-shop.com") ([whoisYoung, sslPerfect])).score ≤ 50 :=
  young_domain_cap_le_fifty _ _ whoisYoung
    ({ domainAge := some 10, registrar := some "Example Registrar" }) 10
    ("Example Registrar") (by decide) (by decide) rfl rfl rfl (by norm_num)

/-- C5: with no malware flag, a reviews result whose details carry a total
review count below 20 caps the returned score at 60. -/
theorem insufficient_reviews_cap_le_sixty (url : String)
    (checks : List CheckResult) (c : CheckResult) (d : CheckDetails) (t : ℤ)
    (hm : malwareOverride checks = false)
    (h1 : findCheck ("reviews") checks = some c)
    (h2 : c.details = some d)
    (h3 : d.totalReviews = some t)
    (h4 : t < 20) :
    (calculateScore url checks).score ≤ 60 := by
  rw [calculateScore_score_eq url checks hm]
  have hins : hasInsufficientReviews c.details = true := by
    rw [h2]
    simp [hasInsufficientReviews, h3, h4]
  have hrev : applyReviewsCap checks (applyCryptoCap checks
      (applyYoungDomainCap checks (blendScore checks))) ≤ 60 := by
    simp only [applyReviewsCap, h1, hins, if_true]
    exact min_le_right _ _
  exact round_le_of_le (by exact_mod_cast hrev)

/-- C5 witness: five reviews alongside a perfect ssl signal. -/
theorem insufficient_reviews_cap_le_sixty_witness :
    (calculateScore ("https://tiny-shop.com") ([reviewsFew, sslPerfect])).score ≤ 60 :=
  insufficient_reviews_cap_le_sixty _ _ reviewsFew
    ({ totalReviews := some 5 }) 5 (by decide) (by decide) rfl rfl (by norm_num)

/-- C7: the heuristics detector returns exactly the clamp of 100 minus the
summed sub-check penalties into [0, 100]; the score therefore always lies in
that interval, and the whole computation is a pure function of the domain
string (deterministic by construction, no I/O). -/
theorem heuristics_score_clamp_range (d : String) :
    heuristicsScore d = min (max (100 - heuristicsTotalPenalty d) 0) 100 ∧
    0 ≤ heuristicsScore d ∧ heuristicsScore d ≤ 100 := by
  unfold heuristicsScore
  refine ⟨?_, ?_, ?_⟩ <;> omega

/-- C8: immediately after set the aggregate cache returns the stored value,
and once the entry age strictly exceeds the TTL a read reports it absent and
removes it from the store. -/
theorem aggregate_cache_roundtrip_and_expiry (store : Store) (now now2 : ℤ)
    (domain : String) (v : TrustResult) :
    (now2 - now ≤ CACHE_TTL_MS →
      (getCachedResult (setCachedResult store now domain v) now2 domain).1 = some v) ∧
    (CACHE_TTL_MS < now2 - now →
      (getCachedResult (setCachedResult store now domain v) now2 domain).1 = none ∧
      (getCachedResult (setCachedResult store now domain v) now2 domain).2
        (cacheKey domain) = none) := by
  constructor
  · intro h
    have hn : ¬ CACHE_TTL_MS < now2 - now := not_lt.mpr h
    simp [getCachedResult, setCachedResult, hn]
  · intro h
    constructor
    · simp [getCachedResult, setCachedResult, h]
    · simp [getCachedResult, setCachedResult, h]

/-- C8 witness: a concrete store round-trip and a read after the TTL. -/
theorem aggregate_cache_roundtrip_and_expiry_witness :
    (getCachedResult (setCachedResult (fun _ => none) 0 ("ex.com") sampleResult)
        1000 ("ex.com")).1 = some sampleResult ∧
    (getCachedResult (setCachedResult (fun _ => none) 0 ("ex.com") sampleResult)
        (CACHE_TTL_MS + 1) ("ex.com")).1 = none :=
  ⟨(aggregate_cache_roundtrip_and_expiry (fun _ => none) 0 1000 ("ex.com")
      sampleResult).1 (by decide),
   ((aggregate_cache_roundtrip_and_expiry (fun _ => none) 0 (CACHE_TTL_MS + 1)
      ("ex.com") sampleResult).2 (by omega)).1⟩

/-- C9: the error placeholder is built with status unknown, score 50 and the
unavailable message, and runCheck always produces a result; but for the
safe-browsing type the attached weight is 10, not the configured 0, because
the JS fallback weights[type] || 10 treats the stored 0 as falsy.  This
contradicts the doc comment of getWeightForType, which assigns safe-browsing
0 percent. -/
theorem error_placeholder_weight_slip :
    (createErrorResult ("safe-browsing")).weight = 10 ∧
    configuredWeights ("safe-browsing") = some 0 ∧
    (createErrorResult ("safe-browsing")).status = .unknown ∧
    (createErrorResult ("safe-browsing")).score = 50 ∧
    (createErrorResult ("safe-browsing")).message = "Verifica non disponibile" ∧
    (createErrorResult ("whois")).weight = 10 ∧
    (createErrorResult ("ssl")).weight = 10 ∧
    (createErrorResult ("ipqs")).weight = 30 ∧
    (createErrorResult ("reviews")).weight = 40 ∧
    (createErrorResult ("heuristics")).weight = 10 ∧
    (∀ e : String, runCheck ("safe-browsing") (Except.error e) =
      createErrorResult ("safe-browsing")) ∧
    (∀ r : CheckResult, runCheck ("safe-browsing") (Except.ok r) = r) := by
  refine ⟨by decide, by decide, by decide, by decide, by decide, by decide,
    by decide, by decide, by decide, by decide, fun e => rfl, fun r => rfl⟩

/-- C10: the insufficient-reviews test of the scoring engine holds exactly
when the details object is absent, carries insufficientReviews strictly
true, or carries a totalReviews value below 20; in particular the error
placeholder details (error true, nothing else) do not trigger it, while a
missing details object does; and the cap applied by calculateScore is
min(fs, 60) exactly when the test holds of the first reviews result. -/
theorem insufficient_reviews_trigger_iff (od : Option CheckDetails)
    (checks : List CheckResult) (fs : ℚ) (c : CheckResult)
    (h : findCheck ("reviews") checks = some c) :
    (hasInsufficientReviews od = true ↔
      od = none ∨ ∃ d, od = some d ∧
        (d.insufficientReviews = some true ∨
          ∃ t, d.totalReviews = some t ∧ t < 20)) ∧
    hasInsufficientReviews (some { error := some true }) = false ∧
    hasInsufficientReviews none = true ∧
    applyReviewsCap checks fs =
      (if hasInsufficientReviews c.details then min fs 60 else fs) := by
  refine ⟨?_, by decide, by decide, ?_⟩
  · rcases od with _ | d
    · simp [hasInsufficientReviews]
    · simp only [hasInsufficientReviews, Bool.or_eq_true, beq_iff_eq,
        Option.some.injEq, reduceCtorEq, false_or]
      constructor
      · rintro (h1 | h2)
        · exact ⟨d, rfl, Or.inl h1⟩
        · rcases ht : d.totalReviews with _ | t
          · rw [ht] at h2
            simp at h2
          · rw [ht] at h2
            simp only [decide_eq_true_eq] at h2
            exact ⟨d, rfl, Or.inr ⟨t, ht, h2⟩⟩
      · rintro ⟨d2, hd2, h1 | ⟨t, ht, hlt⟩⟩
        · cases hd2
          exact Or.inl h1
        · cases hd2
          rw [ht]
          simp [hlt]
  · simp only [applyReviewsCap, h]

/-- C10 witness: the error placeholder for a failed reviews check is not
capped. -/
theorem insufficient_reviews_trigger_iff_witness :
    applyReviewsCap ([createErrorResult ("reviews")]) 70 = 70 := by
  have h := insufficient_reviews_trigger_iff none
    ([createErrorResult ("reviews")]) 70 (createErrorResult ("reviews")) (by decide)
  rw [h.2.2.2]
  norm_num [createErrorResult, h.2.1]

/-- C2 (counterexample): at a review count of 10 (below 50) the reviews
weight is indeed 10, but the reputation (ipqs) signal does not carry the
claimed complement 45: the ipqs handler attaches the fixed weight 15 and
the frontend fallback table assigns it 30; likewise the whois, ssl and
heuristics weights are 10 each, not the claimed 15. -/
theorem reputation_weight_not_complementary :
    getReviewsWeight 10 = 10 ∧
    (ipqsResult ⟨0, false, false, false, false⟩).weight = 15 ∧
    ¬(ipqsResult ⟨0, false, false, false, false⟩).weight = 45 ∧
    getWeightForType ("ipqs") = 30 ∧
    ¬getWeightForType ("ipqs") = 45 ∧
    ¬getWeightForType ("whois") = 15 ∧
    ¬getWeightForType ("ssl") = 15 ∧
    ¬getWeightForType ("heuristics") = 15 := by
  refine ⟨by decide, rfl, by decide, by decide, by decide, by decide,
    by decide, by decide⟩

/-- C2 (amended): the reviews weight is dynamic as claimed (10 below 50
reviews, 20 between 50 and 200, 30 above 200), but no complementary pair
exists: the ipqs handler attaches the fixed weight 15, the heuristics
handler the fixed weight 10, and the frontend fallback table carries
safe-browsing 0, whois 10, ssl 10, ipqs 30, reviews 40 and heuristics 10,
which sum to 100. -/
theorem actual_weight_scheme (R : ℤ) (data : IpqsData) (dom : String) :
    (R < 50 → getReviewsWeight R = 10) ∧
    (50 ≤ R ∧ R ≤ 200 → getReviewsWeight R = 20) ∧
    (200 < R → getReviewsWeight R = 30) ∧
    (ipqsResult data).weight = 15 ∧
    (heuristicsResult dom).weight = 10 ∧
    getWeightForType ("whois") = 10 ∧
    getWeightForType ("ssl") = 10 ∧
    getWeightForType ("ipqs") = 30 ∧
    getWeightForType ("reviews") = 40 ∧
    getWeightForType ("heuristics") = 10 ∧
    configuredWeights ("safe-browsing") = some 0 ∧
    (configuredWeights ("safe-browsing")).getD 0 + getWeightForType ("whois") +
      getWeightForType ("ssl") + getWeightForType ("ipqs") +
      getWeightForType ("reviews") + getWeightForType ("heuristics") = 100 := by
  refine ⟨?_, ?_, ?_, rfl, rfl, by decide, by decide, by decide, by decide,
    by decide, by decide, by decide⟩
  · intro h
    simp [getReviewsWeight, h]
  · rintro ⟨h1, h2⟩
    rw [getReviewsWeight, if_neg (by omega), if_pos h2]
  · intro h
    rw [getReviewsWeight, if_neg (by omega), if_neg (by omega)]

/-- C2 witness: the three review-count bands at 10, 100 and 300, the fixed
handler weights, and the frontend table. -/
theorem actual_weight_scheme_witness :
    getReviewsWeight 10 = 10 ∧ getReviewsWeight 100 = 20 ∧
    getReviewsWeight 300 = 30 ∧
    (ipqsResult ⟨0, false, false, false, false⟩).weight = 15 ∧
    (heuristicsResult ("ex.com")).weight = 10 := by
  have h10 := actual_weight_scheme 10 ⟨0, false, false, false, false⟩ ("ex.com")
  have h100 := actual_weight_scheme 100 ⟨0, false, false, false, false⟩ ("ex.com")
  have h300 := actual_weight_scheme 300 ⟨0, false, false, false, false⟩ ("ex.com")
  exact ⟨h10.1 (by omega), h100.2.1 ⟨by omega, by omega⟩, h300.2.2.1 (by omega),
    h10.2.2.2.1, h10.2.2.2.2.1⟩

/-- When no rule fires for the head brand, the typosquatting loop moves on
to the remaining brands. -/
theorem typosquatLoop_step_skip (base norm a : String) (rest : List String)
    (he : earlyTyposquatRules a base norm = false)
    (hr : brandSuffixRule a base = false) :
    checkTyposquattingLoop base norm (a :: rest) =
      checkTyposquattingLoop base norm rest := by
  simp only [earlyTyposquatRules, Bool.or_eq_false_iff] at he
  obtain ⟨⟨hc1, hc2⟩, hc3⟩ := he
  simp only [checkTyposquattingLoop, hc1, hc2, hc3, hr, Bool.false_eq_true,
    if_false]

/-- When the earlier rules fail for the head brand but its suffix rule
fires, the loop returns the penalty-30 warning naming that brand. -/
theorem typosquatLoop_step_hit (base norm a : String) (rest : List String)
    (he : earlyTyposquatRules a base norm = false)
    (hr : brandSuffixRule a base = true) :
    checkTyposquattingLoop base norm (a :: rest) =
      ⟨false, 30, "Dominio sospetto: usa il brand \"" ++ a ++ "\"", .warning⟩ := by
  simp only [earlyTyposquatRules, Bool.or_eq_false_iff] at he
  obtain ⟨⟨hc1, hc2⟩, hc3⟩ := he
  simp only [checkTyposquattingLoop, hc1, hc2, hc3, hr, Bool.false_eq_true,
    if_false, if_true]

/-- The typosquatting loop returns the suffix-rule outcome of the first
brand whose suffix rule fires, provided no earlier rule fires for any
brand of the list. -/
theorem typosquatLoop_decoy (base norm : String) (L : List String) (b : String)
    (h1 : ∀ brand ∈ L, earlyTyposquatRules brand base norm = false)
    (h2 : L.find? (fun brand => brandSuffixRule brand base) = some b) :
    checkTyposquattingLoop base norm L =
      ⟨false, 30, "Dominio sospetto: usa il brand \"" ++ b ++ "\"", .warning⟩ := by
  induction L with
  | nil => simp [List.find?] at h2
  | cons a rest ih =>
      by_cases hr : brandSuffixRule a base = true
      · rw [@List.find?_cons_of_pos _ (fun brand => brandSuffixRule brand base)
            a rest hr] at h2
        injection h2 with hab
        subst hab
        exact typosquatLoop_step_hit base norm a rest (h1 a (by simp)) hr
      · have hrf : brandSuffixRule a base = false := by
          revert hr
          cases brandSuffixRule a base <;> simp
        rw [@List.find?_cons_of_neg _ (fun brand => brandSuffixRule brand base)
            a rest (by simp [hrf])] at h2
        rw [typosquatLoop_step_skip base norm a rest (h1 a (by simp)) hrf]
        exact ih (fun br hbr => h1 br (by simp [hbr])) h2

/-- C6 (counterexample): the label amazon-shop is the brand amazon followed
by the decoy suffix -shop from the fixed list, and no earlier rule matches
it, yet the sub-check returns penalty 0 and not 30: the code compares
against the hyphen-stripped form amazonshop, which the hyphenated label
does not contain. -/
theorem decoy_suffix_literal_hyphen_misses :
    getDomainWithoutTld ("amazon-shop.com") = "amazon" ++ "-shop" ∧
    ("-shop") ∈ SUFFIXES ∧
    ("amazon") ∈ KNOWN_BRANDS ∧
    checkTyposquatting ("amazon-shop.com") = ⟨true, 0, "", .info⟩ := by
  refine ⟨by decide, by decide, by decide, by decide⟩

/-- C6 (amended): for every domain whose label contains a recognized brand
followed by the hyphen-stripped form of a decoy suffix (so amazonshop, not
amazon-shop), differing from the bare brand, and matching no earlier
typosquatting rule for any brand, the sub-check returns penalty 30 with
warning severity; the loop short-circuits, naming the first brand whose
rule matches. -/
theorem decoy_suffix_stripped_rule (d b : String)
    (h1 : ∀ brand ∈ KNOWN_BRANDS,
      earlyTyposquatRules brand (getDomainWithoutTld d)
        (normalizeDomain (getDomainWithoutTld d)) = false)
    (h2 : KNOWN_BRANDS.find?
        (fun brand => brandSuffixRule brand (getDomainWithoutTld d)) = some b) :
    checkTyposquatting d =
      ⟨false, 30, "Dominio sospetto: usa il brand \"" ++ b ++ "\"", .warning⟩ := by
  unfold checkTyposquatting
  exact typosquatLoop_decoy _ _ _ _ h1 h2

/-- C6 witness: amazonshop.com is flagged with penalty 30 against the brand
amazon. -/
theorem decoy_suffix_stripped_rule_witness :
    checkTyposquatting ("amazonshop.com") =
      ⟨false, 30, "Dominio sospetto: usa il brand \"amazon\"", .warning⟩ := by
  have h := decoy_suffix_stripped_rule ("amazonshop.com") ("amazon")
    (by decide) (by decide)
  simpa using h

end Trusty
